import Mathlib

/-!
Verification of the QueryX backend (src/main.py): a FastAPI façade over a
generative-model provider.  The development shallowly embeds the prompt
builder (`build_system_prompt`, `make_markdown_prompt`), the two request
handlers (`ask_text`, `ask_image`) with the external provider call abstracted
as an outcome parameter, and the pydantic boundary validation of
`AskTextRequest`.

Strings are embedded as Lean `String`s.  The long prompt texts are
represented as joins of the per-line literals exactly as they appear
(implicitly concatenated) in the Python source; substring facts about the
full prompts are decided through a verified chunk-wise scanner (`chunkScan`)
so that every kernel evaluation stays on short character lists.
-/

set_option maxRecDepth 10000

namespace QueryX

/-! ## Generic string machinery -/

/-- `isPrefixList n l` is true iff the char list `n` is a prefix of `l`. -/
def isPrefixList : List Char → List Char → Bool
  | [], _ => true
  | _ :: _, [] => false
  | a :: as, b :: bs => (a == b) && isPrefixList as bs

/-- `containsList hay needle` is true iff `needle` occurs contiguously in `hay`. -/
def containsList : List Char → List Char → Bool
  | [], needle => isPrefixList needle []
  | x :: t, needle => isPrefixList needle (x :: t) || containsList t needle

/-- Substring test on strings (via their char lists). -/
def strContains (hay needle : String) : Bool :=
  containsList hay.data needle.data

/-- Join of a list of strings, in order, with no separator. -/
def joinStr : List String → String
  | [] => ""
  | c :: rest => c ++ joinStr rest

/-- Chunk-wise substring scanner: an occurrence of `n` in the concatenation
of `cs` either starts inside some chunk `c` (hence lies inside
`c ++ (following text truncated to n.length - 1)`) or lies wholly in the
following chunks.  Each `containsList` call only ever sees one chunk plus a
short carry-over, keeping kernel evaluation depth proportional to the chunk
size. -/
def chunkScan : List (List Char) → List Char → Bool
  | [], n => containsList [] n
  | c :: rest, n => containsList (c ++ rest.flatten.take (n.length - 1)) n || chunkScan rest n

/-- Model of Python `str.strip()`: drop leading and trailing whitespace. -/
def pyStrip (s : String) : String :=
  ⟨((s.data.dropWhile Char.isWhitespace).reverse.dropWhile Char.isWhitespace).reverse⟩

/-- Model of Python `x or dflt` for an optional string `x`: `None` and the
empty string are falsy, any other string is returned unchanged. -/
def pyOrStr (x : Option String) (dflt : String) : String :=
  match x with
  | none => dflt
  | some s => if s = "" then dflt else s

/-! ## Prompt builder (src/main.py, `build_system_prompt`, lines 61-125)

Each Lean string literal below is one adjacently-concatenated Python literal
from the source.  Literal `\x7b`/`\x7d` escapes are the brace characters and
`\x27` is the apostrophe, exactly as they appear in the Python text. -/

/-- The `level_line` local of `build_system_prompt` (lines 63-72). -/
def level_line (level : String) : String :=
  if level = "advanced" then
    "Explain with JEE/NEET exam depth, derivations, multiple cases " ++
      "and mention important limiting cases / approximations where useful."
  else
    "Explain conceptually for class 11–12 level without unnecessary complications. " ++
      "Use simple language and only the formulas actually needed."

/-- The `style_line` local of `build_system_prompt` (lines 75-91). -/
def style_line (style : String) : String :=
  if style = "detailed" then
    "Give a DETAILED, step-by-step solution:\n" ++
      "- Use clear headings like \x27Concept\x27, \x27Given\x27, \x27Solution\x27, \x27Result\x27.\n" ++
      "- Use numbered steps for derivation and reasoning.\n" ++
      "- Length around 300–600 words (ya 6–12 bullet/steps).\n" ++
      "- Include 1–2 short examples or comments if helpful."
  else
    "Give a SHORT, exam-ready answer ONLY:\n" ++
      "- Maximum 4–6 lines OR up to 5 bullet points.\n" ++
      "- NO extra examples, stories, or side comments.\n" ++
      "- ONLY the key concept, main formula, and final result.\n" ++
      "- Target length ≈ 80–150 words total.\n" ++
      "- Do NOT add headings; sirf chhota crisp explanation do."

/-- The `lang_line` local of `build_system_prompt` (lines 94-100). -/
def lang_line (language : String) : String :=
  if language = "hinglish" then
    "Write using mixed Hindi + English (Hinglish) in Roman script. " ++
      "Sentences Hinglish me ho, lekin equations LaTeX me likho."
  else
    "Write explanation in clear English. Equations in LaTeX."

/-- The pieces of the string returned by `build_system_prompt` (lines
102-125), one list element per Python literal (the three `f"- {...}\n"`
lines become three elements each). -/
def systemPromptParts (level style language : String) : List String :=
  ["You are QueryX, a PCMB question solver for JEE/NEET.\n\n",
   "GOAL:\n",
   "- Provide only the final answer in clean markdown.\n",
   "- Do NOT output JSON, and do NOT output code fences.\n",
   "- Use LaTeX for all mathematical expressions.\n",
   "  Inline examples: $F = ma$, $Q_\x7benc\x7d$, $\\vec\x7bE\x7d \\cdot d\\vec\x7bA\x7d$.\n",
   "  Block examples:\n\n",
   "    $$ \\oint_S \\vec\x7bE\x7d \\cdot dA = \\frac\x7bQ_\x7benc\x7d\x7d\x7b\\varepsilon_0\x7d $$\n",
   "    $$ V(r) = \\frac\x7b1\x7d\x7b4\\pi\\varepsilon_0\x7d \\frac\x7bq\x7d\x7br\x7d $$\n\n",
   "STYLE RULES (VERY IMPORTANT):\n",
   "- ", level_line level, "\n",
   "- ", style_line style, "\n",
   "- ", lang_line language, "\n",
   "- Do not mention internal reasoning.\n",
   "- Do not mention that you are an AI model.\n",
   "- Final answer must be clean and formatted.\n\n",
   "STRICT LATEX RULES:\n",
   "- Always use $ ... $ for inline LaTeX.\n",
   "- Always use $$ ... $$ for block LaTeX on separate lines.\n",
   "- No HTML tags inside equations.\n",
   "- No unicode subscripts (Q₀). Use LaTeX subscripts (Q_0).\n",
   "- Never wrap LaTeX inside backticks.\n"]

/-- `build_system_prompt(level, style, language)` (lines 61-125). -/
def build_system_prompt (level style language : String) : String :=
  joinStr (systemPromptParts level style language)

/-- The literals appended after `system_prompt` in `make_markdown_prompt`
(lines 128-143), with the `question` argument spliced in between them. -/
def markdownTailParts (question : String) : List String :=
  ["\n\nQuestion:\n",
   question,
   "\n\nAnswer format instructions (follow strictly):\n",
   "- Use markdown paragraphs + bullet / numbered lists.\n",
   "- All maths strictly in LaTeX.\n",
   "- Inline examples: $F = ma$, $T = 2\\pi\\sqrt\x7bL/g\x7d$.\n",
   "- Block examples:\n",
   "    $$ W = \\int_\x7bx_1\x7d^\x7bx_2\x7d F(x) \\, dx $$\n",
   "    $$ a(t) = \\frac\x7bdv\x7d\x7bdt\x7d, \\quad v(t) = \\frac\x7bdx\x7d\x7bdt\x7d $$\n",
   "- Do NOT output triple backticks.\n",
   "- Do NOT output JSON.\n\n",
   "Now give the final answer:\n"]

/-- The pieces of the string returned by `make_markdown_prompt`: the system
prompt followed by the fixed tail around the question. -/
def markdownParts (system_prompt question : String) : List String :=
  system_prompt :: markdownTailParts question

/-- `make_markdown_prompt(system_prompt, question)` (lines 128-143). -/
def make_markdown_prompt (system_prompt question : String) : String :=
  joinStr (markdownParts system_prompt question)

/-! ## Request handlers (src/main.py, lines 151-198)

The external provider call `model.generate_content` is abstracted as an
outcome parameter: `GenOutcome.ok t` models a normal return whose `.text`
attribute is `t` (`none` standing for Python `None`), and `GenOutcome.raises`
models the call raising any exception. -/

/-- Outcome of one `model.generate_content` call. -/
inductive GenOutcome where
  | ok (text : Option String)
  | raises

/-- The fixed fallback sentence of the `/ask-text` handler (line 168). -/
def textFallback : String :=
  "Sorry, backend me kuch error aa gaya. Please try again."

/-- The fixed fallback sentence of the `/ask-image` handler (line 196). -/
def imageFallback : String :=
  "Sorry, image se question read karte waqt error aa gaya."

/-- `AskTextRequest` (lines 45-49) after boundary validation: the three
option fields are plain strings here; `parseAskTextRequest` below enforces
the `Literal` constraints of the pydantic model. -/
structure AskTextRequest where
  question : String
  level : String
  style : String
  language : String

/-- `AnswerResponse` (lines 52-53). -/
structure AnswerResponse where
  answer_text : String

/-- The `/ask-text` handler body (lines 156-170).  `gen` is the provider's
behavior on the full prompt it is called with; the prompts are built before
the `try` block, and the `except` branch substitutes the fixed fallback. -/
def ask_text (payload : AskTextRequest) (gen : String → GenOutcome) : AnswerResponse :=
  let system_prompt := build_system_prompt payload.level payload.style payload.language
  let full_prompt := make_markdown_prompt system_prompt (pyStrip payload.question)
  match gen full_prompt with
  | GenOutcome.ok t => { answer_text := pyStrip (pyOrStr t ("")) }
  | GenOutcome.raises => { answer_text := textFallback }

/-- One element of the `contents` list passed to the provider in
`/ask-image` (lines 185-189): either a prompt string or a mime-typed byte
payload. -/
inductive GenPart where
  | text (s : String)
  | image (mime_type : String) (data : List Nat)

/-- The `/ask-image` handler body (lines 173-198).  `readRes` is the outcome
of `await file.read()` inside the `try` block (`none`: it raised), and `gen`
is the provider's behavior on the `contents` it is called with; both failure
paths land in the single `except` branch substituting the image fallback. -/
def ask_image (content_type : Option String) (level style language : String)
    (readRes : Option (List Nat)) (gen : List GenPart → GenOutcome) : AnswerResponse :=
  let system_prompt := build_system_prompt level style language
  match readRes with
  | none => { answer_text := imageFallback }
  | some img_bytes =>
    let contents : List GenPart :=
      [GenPart.text (system_prompt ++
         "\nRewrite the question clearly from the image. Then solve step-by-step.\n"),
       GenPart.image (pyOrStr content_type ("image/jpeg")) img_bytes]
    match gen contents with
    | GenOutcome.ok t => { answer_text := pyStrip (pyOrStr t ("")) }
    | GenOutcome.raises => { answer_text := imageFallback }

/-! ## HTTP boundary

Modelled from the spec: the FastAPI/pydantic request validation itself is
framework code not present under src/; it is modelled here from §3/§6/§7 of
the spec applied to the field declarations of `AskTextRequest` (src/main.py,
lines 45-49): a missing required field or a value outside a `Literal`
enumeration is rejected before the handler runs (HTTP 422); omitted optional
fields take their declared defaults; a field declared `str` accepts any
string. -/

/-- A JSON body for `POST /ask-text`: each field either absent or a string. -/
structure AskTextBody where
  question : Option String
  level : Option String
  style : Option String
  language : Option String

/-- Modelled from the spec: pydantic validation of one optional `Literal`
field with a default. -/
def parseEnumField (allowed : List String) (dflt : String) : Option String → Option String
  | none => some dflt
  | some v => if v ∈ allowed then some v else none

/-- Modelled from the spec: pydantic validation of an `AskTextRequest` body
against the declarations at src/main.py lines 45-49 (`question: str`,
`level: Level = "basic"`, `style: Style = "detailed"`,
`language: Language = "hinglish"`).  `none` is a validation rejection. -/
def parseAskTextRequest (b : AskTextBody) : Option AskTextRequest :=
  match b.question with
  | none => none
  | some q =>
    match parseEnumField ["basic", "advanced"] ("basic") b.level with
    | none => none
    | some l =>
      match parseEnumField ["detailed", "short"] ("detailed") b.style with
      | none => none
      | some s =>
        match parseEnumField ["english", "hinglish"] ("hinglish") b.language with
        | none => none
        | some g => some { question := q, level := l, style := s, language := g }

/-- An HTTP-level result: either a validation rejection produced by the
framework before the handler runs, or a handler response with its status. -/
inductive HttpResult where
  | validationError (status : Nat)
  | handled (status : Nat) (body : AnswerResponse)

/-- `POST /ask-text` end to end: boundary validation, then the handler; a
normal handler return is sent with HTTP 200. -/
def askTextRoute (b : AskTextBody) (gen : String → GenOutcome) : HttpResult :=
  match parseAskTextRequest b with
  | none => HttpResult.validationError 422
  | some payload => HttpResult.handled 200 (ask_text payload gen)

/-- `POST /ask-image` end to end: the option parameters are already
validated and defaulted by the framework; a normal handler return is sent
with HTTP 200. -/
def askImageRoute (content_type : Option String) (level style language : String)
    (readRes : Option (List Nat)) (gen : List GenPart → GenOutcome) : HttpResult :=
  HttpResult.handled 200 (ask_image content_type level style language readRes gen)

/-! ## Named instruction texts used by the claims -/

/-- The exam-depth / derivation instruction emitted for `level = advanced`
(the full `level_line` text of lines 64-67). -/
def examDepthInstruction : String :=
  "Explain with JEE/NEET exam depth, derivations, multiple cases and mention important limiting cases / approximations where useful."

/-- The explicit maximum-length constraint of the `short` style clause
(line 86). -/
def maxLenConstraint : String :=
  "Maximum 4–6 lines OR up to 5 bullet points."

/-- The ban on extra examples in the `short` style clause (line 87). -/
def noExtraExamples : String :=
  "NO extra examples, stories, or side comments."

/-- The headings instruction of the `detailed` style clause (line 78). -/
def headingsInstruction : String :=
  "Use clear headings like \x27Concept\x27, \x27Given\x27, \x27Solution\x27, \x27Result\x27."

/-- The numbered-steps instruction of the `detailed` style clause (line 79). -/
def numberedStepsInstruction : String :=
  "Use numbered steps for derivation and reasoning."

/-- The system prompts of all 8 enumerated (level, style, language)
combinations. -/
def allSystemPrompts : List String :=
  [build_system_prompt ("basic") ("detailed") ("english"),
   build_system_prompt ("basic") ("detailed") ("hinglish"),
   build_system_prompt ("basic") ("short") ("english"),
   build_system_prompt ("basic") ("short") ("hinglish"),
   build_system_prompt ("advanced") ("detailed") ("english"),
   build_system_prompt ("advanced") ("detailed") ("hinglish"),
   build_system_prompt ("advanced") ("short") ("english"),
   build_system_prompt ("advanced") ("short") ("hinglish")]

/-- Three observable bits of a prompt: whether it carries the advanced-level
instruction, the detailed-style marker, and the Hinglish language marker.
Used to separate the 8 prompt variants. -/
def promptBits (p : String) : Bool × Bool × Bool :=
  (strContains p examDepthInstruction,
   strContains p ("DETAILED"),
   strContains p ("Hinglish"))

/-! ## Basic string lemmas -/

theorem strData_append (s t : String) : (s ++ t).data = s.data ++ t.data := by
  cases s; cases t; rfl

theorem strExt {s t : String} (h : s.data = t.data) : s = t := by
  cases s; cases t; cases h; rfl

theorem joinStr_data (cs : List String) :
    (joinStr cs).data = (cs.map String.data).flatten := by
  induction cs with
  | nil => rfl
  | cons c rest ih => simp [joinStr, strData_append, ih]

theorem isPrefixList_short (n l : List Char) (h : l.length < n.length) :
    isPrefixList n l = false := by
  induction n generalizing l with
  | nil => simp at h
  | cons a as ih =>
    cases l with
    | nil => rfl
    | cons b bs =>
      simp only [isPrefixList, Bool.and_eq_false_iff]
      right
      exact ih bs (by simpa using Nat.lt_of_succ_lt_succ h)

theorem containsList_short (hay n : List Char) (h : hay.length < n.length) :
    containsList hay n = false := by
  induction hay with
  | nil =>
    cases n with
    | nil => simp at h
    | cons a as => rfl
  | cons x t ih =>
    simp only [containsList, Bool.or_eq_false_iff]
    constructor
    · exact isPrefixList_short _ _ h
    · exact ih (Nat.lt_of_le_of_lt (Nat.le_succ _) h)

theorem isPrefixList_take (n l : List Char) :
    isPrefixList n l = isPrefixList n (l.take n.length) := by
  induction n generalizing l with
  | nil => cases l <;> rfl
  | cons a as ih =>
    cases l with
    | nil => rfl
    | cons b bs => simp only [List.take_succ_cons, isPrefixList, ih bs]

theorem isPrefixList_self_append (n r : List Char) :
    isPrefixList n (n ++ r) = true := by
  induction n with
  | nil => rfl
  | cons a as ih => simp [isPrefixList, ih]

theorem containsList_of_isPrefixList (hay n : List Char)
    (h : isPrefixList n hay = true) : containsList hay n = true := by
  cases hay with
  | nil => exact h
  | cons x t => simp [containsList, h]

theorem containsList_append_left (a b n : List Char)
    (h : containsList b n = true) : containsList (a ++ b) n = true := by
  induction a with
  | nil => simpa using h
  | cons x a' ih => simp [containsList, ih]

theorem containsList_self_append (n r : List Char) :
    containsList (n ++ r) n = true :=
  containsList_of_isPrefixList _ _ (isPrefixList_self_append n r)

theorem take_append_take (a b : List Char) (k : Nat) :
    (a ++ (b.take k)).take k = (a ++ b).take k := by
  rw [List.take_append_eq_append_take, List.take_append_eq_append_take,
    List.take_take, Nat.min_eq_left (Nat.sub_le _ _)]

theorem containsList_append_split (a b n : List Char) (hn : 0 < n.length) :
    containsList (a ++ b) n =
      (containsList (a ++ b.take (n.length - 1)) n || containsList b n) := by
  induction a with
  | nil =>
    have hshort : containsList (b.take (n.length - 1)) n = false := by
      apply containsList_short
      exact Nat.lt_of_le_of_lt (List.length_take_le _ _)
        (Nat.sub_lt hn (by decide))
    simp [hshort]
  | cons x a' ih =>
    have hpre : isPrefixList n (x :: (a' ++ b)) =
        isPrefixList n (x :: (a' ++ b.take (n.length - 1))) := by
      set k := n.length - 1 with hk
      rw [isPrefixList_take n (x :: (a' ++ b)),
        isPrefixList_take n (x :: (a' ++ b.take k))]
      have hlen : n.length = k + 1 := (Nat.succ_pred_eq_of_pos hn).symm
      rw [hlen, List.take_succ_cons, List.take_succ_cons, take_append_take]
    simp only [List.cons_append, containsList, List.append_eq, Bool.or_assoc, ih, hpre]

theorem chunkScan_eq (cs : List (List Char)) (n : List Char) (hn : 0 < n.length) :
    chunkScan cs n = containsList cs.flatten n := by
  induction cs with
  | nil => rfl
  | cons c rest ih =>
    simp only [chunkScan, List.flatten_cons, ih]
    rw [containsList_append_split c rest.flatten n hn]

/-- Master bridge: substring search in a join of chunks equals the bounded
chunk-wise scan. -/
theorem strContains_joinStr (cs : List String) (n : String)
    (hn : 0 < n.data.length) :
    strContains (joinStr cs) n = chunkScan (cs.map String.data) n.data := by
  unfold strContains
  rw [joinStr_data, chunkScan_eq _ _ hn]

theorem joinStr_join_cons (xs ys : List String) :
    joinStr (joinStr xs :: ys) = joinStr (xs ++ ys) := by
  apply strExt
  simp [joinStr_data, strData_append]

/-! ## Bridges from the prompt strings to the chunk scanner -/

theorem strContains_build (l s g n : String) (hn : 0 < n.data.length) :
    strContains (build_system_prompt l s g) n =
      chunkScan ((systemPromptParts l s g).map String.data) n.data :=
  strContains_joinStr _ _ hn

theorem markdown_of_build (l s g q : String) :
    make_markdown_prompt (build_system_prompt l s g) q =
      joinStr (systemPromptParts l s g ++ markdownTailParts q) :=
  joinStr_join_cons _ _

theorem strContains_markdown_build (l s g q n : String) (hn : 0 < n.data.length) :
    strContains (make_markdown_prompt (build_system_prompt l s g) q) n =
      chunkScan ((systemPromptParts l s g ++ markdownTailParts q).map String.data) n.data := by
  rw [markdown_of_build, strContains_joinStr _ _ hn]

/-! ## Boundary-validation lemmas -/

theorem parseEnumField_sound (allowed : List String) (dflt : String)
    (o : Option String) (v : String) (hd : dflt ∈ allowed)
    (h : parseEnumField allowed dflt o = some v) :
    v ∈ allowed ∧ (o = none → v = dflt) := by
  cases o with
  | none =>
    simp only [parseEnumField, Option.some.injEq] at h
    subst h
    exact ⟨hd, fun _ => rfl⟩
  | some s =>
    simp only [parseEnumField] at h
    by_cases hs : s ∈ allowed
    · rw [if_pos hs] at h
      injection h with h2
      subst h2
      exact ⟨hs, fun hno => Option.noConfusion hno⟩
    · rw [if_neg hs] at h
      exact Option.noConfusion h

/-! ## Containment facts for the 8 enumerated prompts

Each fact is proved by rewriting to the chunk scanner and evaluating it. -/

theorem lvlBit_basic_detailed_english :
    strContains (build_system_prompt ("basic") ("detailed") ("english")) examDepthInstruction = false := by
  rw [strContains_build _ _ _ _ (by decide)]
  decide

theorem lvlBit_basic_detailed_hinglish :
    strContains (build_system_prompt ("basic") ("detailed") ("hinglish")) examDepthInstruction = false := by
  rw [strContains_build _ _ _ _ (by decide)]
  decide

theorem lvlBit_basic_short_english :
    strContains (build_system_prompt ("basic") ("short") ("english")) examDepthInstruction = false := by
  rw [strContains_build _ _ _ _ (by decide)]
  decide

theorem lvlBit_basic_short_hinglish :
    strContains (build_system_prompt ("basic") ("short") ("hinglish")) examDepthInstruction = false := by
  rw [strContains_build _ _ _ _ (by decide)]
  decide

theorem lvlBit_advanced_detailed_english :
    strContains (build_system_prompt ("advanced") ("detailed") ("english")) examDepthInstruction = true := by
  rw [strContains_build _ _ _ _ (by decide)]
  decide

theorem lvlBit_advanced_detailed_hinglish :
    strContains (build_system_prompt ("advanced") ("detailed") ("hinglish")) examDepthInstruction = true := by
  rw [strContains_build _ _ _ _ (by decide)]
  decide

theorem lvlBit_advanced_short_english :
    strContains (build_system_prompt ("advanced") ("short") ("english")) examDepthInstruction = true := by
  rw [strContains_build _ _ _ _ (by decide)]
  decide

theorem lvlBit_advanced_short_hinglish :
    strContains (build_system_prompt ("advanced") ("short") ("hinglish")) examDepthInstruction = true := by
  rw [strContains_build _ _ _ _ (by decide)]
  decide

theorem styBit_basic_detailed_english :
    strContains (build_system_prompt ("basic") ("detailed") ("english")) ("DETAILED") = true := by
  rw [strContains_build _ _ _ _ (by decide)]
  decide

theorem styBit_basic_detailed_hinglish :
    strContains (build_system_prompt ("basic") ("detailed") ("hinglish")) ("DETAILED") = true := by
  rw [strContains_build _ _ _ _ (by decide)]
  decide

theorem styBit_basic_short_english :
    strContains (build_system_prompt ("basic") ("short") ("english")) ("DETAILED") = false := by
  rw [strContains_build _ _ _ _ (by decide)]
  decide

theorem styBit_basic_short_hinglish :
    strContains (build_system_prompt ("basic") ("short") ("hinglish")) ("DETAILED") = false := by
  rw [strContains_build _ _ _ _ (by decide)]
  decide

theorem styBit_advanced_detailed_english :
    strContains (build_system_prompt ("advanced") ("detailed") ("english")) ("DETAILED") = true := by
  rw [strContains_build _ _ _ _ (by decide)]
  decide

theorem styBit_advanced_detailed_hinglish :
    strContains (build_system_prompt ("advanced") ("detailed") ("hinglish")) ("DETAILED") = true := by
  rw [strContains_build _ _ _ _ (by decide)]
  decide

theorem styBit_advanced_short_english :
    strContains (build_system_prompt ("advanced") ("short") ("english")) ("DETAILED") = false := by
  rw [strContains_build _ _ _ _ (by decide)]
  decide

theorem styBit_advanced_short_hinglish :
    strContains (build_system_prompt ("advanced") ("short") ("hinglish")) ("DETAILED") = false := by
  rw [strContains_build _ _ _ _ (by decide)]
  decide

theorem lngBit_basic_detailed_english :
    strContains (build_system_prompt ("basic") ("detailed") ("english")) ("Hinglish") = false := by
  rw [strContains_build _ _ _ _ (by decide)]
  decide

theorem lngBit_basic_detailed_hinglish :
    strContains (build_system_prompt ("basic") ("detailed") ("hinglish")) ("Hinglish") = true := by
  rw [strContains_build _ _ _ _ (by decide)]
  decide

theorem lngBit_basic_short_english :
    strContains (build_system_prompt ("basic") ("short") ("english")) ("Hinglish") = false := by
  rw [strContains_build _ _ _ _ (by decide)]
  decide

theorem lngBit_basic_short_hinglish :
    strContains (build_system_prompt ("basic") ("short") ("hinglish")) ("Hinglish") = true := by
  rw [strContains_build _ _ _ _ (by decide)]
  decide

theorem lngBit_advanced_detailed_english :
    strContains (build_system_prompt ("advanced") ("detailed") ("english")) ("Hinglish") = false := by
  rw [strContains_build _ _ _ _ (by decide)]
  decide

theorem lngBit_advanced_detailed_hinglish :
    strContains (build_system_prompt ("advanced") ("detailed") ("hinglish")) ("Hinglish") = true := by
  rw [strContains_build _ _ _ _ (by decide)]
  decide

theorem lngBit_advanced_short_english :
    strContains (build_system_prompt ("advanced") ("short") ("english")) ("Hinglish") = false := by
  rw [strContains_build _ _ _ _ (by decide)]
  decide

theorem lngBit_advanced_short_hinglish :
    strContains (build_system_prompt ("advanced") ("short") ("hinglish")) ("Hinglish") = true := by
  rw [strContains_build _ _ _ _ (by decide)]
  decide

theorem bits_basic_detailed_english :
    promptBits (build_system_prompt ("basic") ("detailed") ("english")) = (false, true, false) := by
  unfold promptBits
  rw [lvlBit_basic_detailed_english, styBit_basic_detailed_english, lngBit_basic_detailed_english]

theorem bits_basic_detailed_hinglish :
    promptBits (build_system_prompt ("basic") ("detailed") ("hinglish")) = (false, true, true) := by
  unfold promptBits
  rw [lvlBit_basic_detailed_hinglish, styBit_basic_detailed_hinglish, lngBit_basic_detailed_hinglish]

theorem bits_basic_short_english :
    promptBits (build_system_prompt ("basic") ("short") ("english")) = (false, false, false) := by
  unfold promptBits
  rw [lvlBit_basic_short_english, styBit_basic_short_english, lngBit_basic_short_english]

theorem bits_basic_short_hinglish :
    promptBits (build_system_prompt ("basic") ("short") ("hinglish")) = (false, false, true) := by
  unfold promptBits
  rw [lvlBit_basic_short_hinglish, styBit_basic_short_hinglish, lngBit_basic_short_hinglish]

theorem bits_advanced_detailed_english :
    promptBits (build_system_prompt ("advanced") ("detailed") ("english")) = (true, true, false) := by
  unfold promptBits
  rw [lvlBit_advanced_detailed_english, styBit_advanced_detailed_english, lngBit_advanced_detailed_english]

theorem bits_advanced_detailed_hinglish :
    promptBits (build_system_prompt ("advanced") ("detailed") ("hinglish")) = (true, true, true) := by
  unfold promptBits
  rw [lvlBit_advanced_detailed_hinglish, styBit_advanced_detailed_hinglish, lngBit_advanced_detailed_hinglish]

theorem bits_advanced_short_english :
    promptBits (build_system_prompt ("advanced") ("short") ("english")) = (true, false, false) := by
  unfold promptBits
  rw [lvlBit_advanced_short_english, styBit_advanced_short_english, lngBit_advanced_short_english]

theorem bits_advanced_short_hinglish :
    promptBits (build_system_prompt ("advanced") ("short") ("hinglish")) = (true, false, true) := by
  unfold promptBits
  rw [lvlBit_advanced_short_hinglish, styBit_advanced_short_hinglish, lngBit_advanced_short_hinglish]

/-! ## Claims -/

/-- C1: for every `/ask-text` request, if the provider call raises any
exception, the handler returns the fixed fallback sentence as `answer_text`,
and at the route level the response is HTTP 200 with that body — the raw
error never surfaces and the status is never non-2xx. -/
theorem askText_provider_failure_masked :
    ∀ (p : AskTextRequest) (b : AskTextBody),
      ask_text p (fun _ => GenOutcome.raises) = { answer_text := textFallback } ∧
      (parseAskTextRequest b = some p →
        askTextRoute b (fun _ => GenOutcome.raises) =
          HttpResult.handled 200 { answer_text := textFallback }) := by
  intro p b
  constructor
  · rfl
  · intro hb
    simp only [askTextRoute, hb]
    rfl

theorem askText_provider_failure_masked_witness :
    ask_text { question := "What is Ohm\x27s law?", level := "basic",
               style := "detailed", language := "hinglish" }
        (fun _ => GenOutcome.raises) = { answer_text := textFallback } ∧
    askTextRoute { question := some ("What is Ohm\x27s law?"), level := none,
                   style := none, language := none }
        (fun _ => GenOutcome.raises) =
      HttpResult.handled 200 { answer_text := textFallback } :=
  ⟨(askText_provider_failure_masked
      { question := "What is Ohm\x27s law?", level := "basic",
        style := "detailed", language := "hinglish" }
      { question := some ("What is Ohm\x27s law?"), level := none,
        style := none, language := none }).1,
   (askText_provider_failure_masked
      { question := "What is Ohm\x27s law?", level := "basic",
        style := "detailed", language := "hinglish" }
      { question := some ("What is Ohm\x27s law?"), level := none,
        style := none, language := none }).2 rfl⟩

/-- C2: for every `/ask-text` request on which the provider call succeeds,
the returned `answer_text` is the provider text with leading and trailing
whitespace stripped, and is the empty string when the provider returned no
text (`None`).  The field is a total field of `AnswerResponse`, so it is
present in every response. -/
theorem askText_success_strips_text :
    ∀ (p : AskTextRequest) (t : Option String),
      (ask_text p (fun _ => GenOutcome.ok t)).answer_text = pyStrip (pyOrStr t ("")) ∧
      (ask_text p (fun _ => GenOutcome.ok none)).answer_text = "" ∧
      ∀ s : String, (ask_text p (fun _ => GenOutcome.ok (some s))).answer_text = pyStrip s := by
  intro p t
  refine ⟨rfl, rfl, ?_⟩
  intro s
  by_cases hs : s = ""
  · subst hs
    rfl
  · show pyStrip (pyOrStr (some s) ("")) = pyStrip s
    have hred : pyOrStr (some s) ("") = s := if_neg hs
    rw [hred]

/-- C3 counterexample: `make_markdown_prompt` does NOT trim its question
argument — called directly with the untrimmed question `"  2+2?  "` (as the
claim quantifies over questions with surrounding whitespace), the full
prompt contains the untrimmed text verbatim, refuting "never contains the
untrimmed surrounding whitespace". -/
theorem makeMarkdownPrompt_keeps_untrimmed_question :
    strContains
      (make_markdown_prompt (build_system_prompt ("basic") ("detailed") ("hinglish"))
        ("  2+2?  "))
      ("  2+2?  ") = true := by
  rw [strContains_markdown_build _ _ _ _ _ (by decide)]
  decide

/-- C3 amended: `make_markdown_prompt` inserts its question argument
verbatim into the "Question:" section; the trimming happens in the
`/ask-text` handler, which passes `question.strip()`.  Hence the full prompt
the handler builds for question `"  2+2?  "` (default system prompt)
contains `"2+2?"` verbatim and not the untrimmed `"  2+2?  "`. -/
theorem handler_full_prompt_contains_trimmed_question :
    (∀ sp q : String, strContains (make_markdown_prompt sp q) q = true) ∧
    pyStrip ("  2+2?  ") = "2+2?" ∧
    strContains
      (make_markdown_prompt (build_system_prompt ("basic") ("detailed") ("hinglish"))
        (pyStrip ("  2+2?  ")))
      ("2+2?") = true ∧
    strContains
      (make_markdown_prompt (build_system_prompt ("basic") ("detailed") ("hinglish"))
        (pyStrip ("  2+2?  ")))
      ("  2+2?  ") = false := by
  refine ⟨fun sp q => ?_, by decide, ?_, ?_⟩
  · unfold strContains make_markdown_prompt markdownParts markdownTailParts
    simp only [joinStr, strData_append]
    exact containsList_append_left _ _ _
      (containsList_append_left _ _ _ (containsList_self_append _ _))
  · rw [strContains_markdown_build _ _ _ _ _ (by decide)]
    decide
  · rw [strContains_markdown_build _ _ _ _ _ (by decide)]
    decide

/-- C4: `build_system_prompt` is a pure function of (level, style,
language) — its output depends on the inputs only through the three clause
lines, so equal clauses give byte-identical output — and the 8 enumerated
combinations produce pairwise distinct prompts (they are separated by the
level/style/language clause markers observed by `promptBits`). -/
theorem buildSystemPrompt_pure_and_distinct :
    (∀ l s g l' s' g' : String,
      level_line l = level_line l' → style_line s = style_line s' →
      lang_line g = lang_line g' →
        build_system_prompt l s g = build_system_prompt l' s' g') ∧
    allSystemPrompts.Nodup := by
  constructor
  · intro l s g l' s' g' h1 h2 h3
    unfold build_system_prompt systemPromptParts
    rw [h1, h2, h3]
  · have hmap : allSystemPrompts.map promptBits =
        [(false, true, false), (false, true, true), (false, false, false),
         (false, false, true), (true, true, false), (true, true, true),
         (true, false, false), (true, false, true)] := by
      simp only [allSystemPrompts, List.map_cons, List.map_nil]
      rw [bits_basic_detailed_english, bits_basic_detailed_hinglish,
        bits_basic_short_english, bits_basic_short_hinglish,
        bits_advanced_detailed_english, bits_advanced_detailed_hinglish,
        bits_advanced_short_english, bits_advanced_short_hinglish]
    have hnodup : (allSystemPrompts.map promptBits).Nodup := by
      rw [hmap]
      decide
    exact List.Nodup.of_map promptBits hnodup

theorem buildSystemPrompt_pure_and_distinct_witness :
    build_system_prompt ("basic") ("detailed") ("hinglish") =
      build_system_prompt ("basic") ("detailed") ("hinglish") :=
  buildSystemPrompt_pure_and_distinct.1 "basic" "detailed" "hinglish"
    "basic" "detailed" "hinglish" rfl rfl rfl

/-- C5: an `/ask-text` body without a `question` field is rejected at the
boundary with HTTP 422 (a 4xx client error); the result does not depend on
the provider at all — the handler, and with it the prompt construction and
the provider call, is never reached. -/
theorem askText_missing_question_rejected :
    ∀ (l s g : Option String) (gen gen' : String → GenOutcome),
      askTextRoute { question := none, level := l, style := s, language := g } gen =
        HttpResult.validationError 422 ∧
      askTextRoute { question := none, level := l, style := s, language := g } gen =
        askTextRoute { question := none, level := l, style := s, language := g } gen' ∧
      (400 ≤ 422 ∧ 422 < 500) := by
  intro l s g gen gen'
  exact ⟨rfl, rfl, by decide, by decide⟩

/-- C6 counterexample: the boundary accepts a request whose `question` is
the EMPTY string (pydantic `question: str` imposes no non-emptiness), so
"every accepted AskTextRequest has a non-empty question string" is false. -/
theorem parse_accepts_empty_question :
    parseAskTextRequest { question := some (""), level := none, style := none, language := none } =
      some { question := "", level := "basic", style := "detailed", language := "hinglish" } :=
  rfl

/-- C6 amended: every `AskTextRequest` accepted at the boundary has a string
question (possibly empty — non-emptiness is not enforced), carried through
unchanged, and its level/style/language fields are always among their
enumerated values, defaulting to basic/detailed/hinglish when omitted. -/
theorem parse_enforces_enums_and_defaults :
    ∀ (b : AskTextBody) (p : AskTextRequest),
      parseAskTextRequest b = some p →
        (p.level ∈ (["basic", "advanced"] : List String) ∧
         p.style ∈ (["detailed", "short"] : List String) ∧
         p.language ∈ (["english", "hinglish"] : List String)) ∧
        (b.level = none → p.level = "basic") ∧
        (b.style = none → p.style = "detailed") ∧
        (b.language = none → p.language = "hinglish") ∧
        b.question = some p.question := by
  intro b p h
  unfold parseAskTextRequest at h
  cases hq : b.question with
  | none => rw [hq] at h; exact Option.noConfusion h
  | some q =>
    rw [hq] at h
    cases hl : parseEnumField ["basic", "advanced"] ("basic") b.level with
    | none => rw [hl] at h; exact Option.noConfusion h
    | some l =>
      rw [hl] at h
      cases hs : parseEnumField ["detailed", "short"] ("detailed") b.style with
      | none => rw [hs] at h; exact Option.noConfusion h
      | some s =>
        rw [hs] at h
        cases hg : parseEnumField ["english", "hinglish"] ("hinglish") b.language with
        | none => rw [hg] at h; exact Option.noConfusion h
        | some g =>
          rw [hg] at h
          injection h with h2
          subst h2
          have Hl := parseEnumField_sound _ _ _ _ (by decide) hl
          have Hs := parseEnumField_sound _ _ _ _ (by decide) hs
          have Hg := parseEnumField_sound _ _ _ _ (by decide) hg
          exact ⟨⟨Hl.1, Hs.1, Hg.1⟩, Hl.2, Hs.2, Hg.2, rfl⟩

theorem parse_enforces_enums_and_defaults_witness :
    (("basic" : String) ∈ (["basic", "advanced"] : List String) ∧
     ("detailed" : String) ∈ (["detailed", "short"] : List String) ∧
     ("hinglish" : String) ∈ (["english", "hinglish"] : List String)) ∧
    ("basic" : String) = "basic" ∧
    ("detailed" : String) = "detailed" ∧
    ("hinglish" : String) = "hinglish" ∧
    (some ("Q") : Option String) = some ("Q") := by
  have H := parse_enforces_enums_and_defaults
    { question := some ("Q"), level := none, style := none, language := none }
    { question := "Q", level := "basic", style := "detailed", language := "hinglish" }
    rfl
  exact ⟨H.1, H.2.1 rfl, H.2.2.1 rfl, H.2.2.2.1 rfl, H.2.2.2.2⟩

/-- C7: for every enumerated style and language, the `advanced` system
prompt contains the exam-depth/derivation instruction text and the `basic`
system prompt does not. -/
theorem advanced_prompt_contains_exam_depth :
    ∀ style language : String,
      style ∈ (["detailed", "short"] : List String) →
      language ∈ (["english", "hinglish"] : List String) →
      strContains (build_system_prompt ("advanced") style language) examDepthInstruction = true ∧
      strContains (build_system_prompt ("basic") style language) examDepthInstruction = false := by
  intro style language hs hg
  simp only [List.mem_cons, List.mem_singleton, List.not_mem_nil, or_false] at hs hg
  rcases hs with rfl | rfl <;> rcases hg with rfl | rfl
  · exact ⟨lvlBit_advanced_detailed_english, lvlBit_basic_detailed_english⟩
  · exact ⟨lvlBit_advanced_detailed_hinglish, lvlBit_basic_detailed_hinglish⟩
  · exact ⟨lvlBit_advanced_short_english, lvlBit_basic_short_english⟩
  · exact ⟨lvlBit_advanced_short_hinglish, lvlBit_basic_short_hinglish⟩

theorem advanced_prompt_contains_exam_depth_witness :
    ("detailed" : String) ∈ (["detailed", "short"] : List String) ∧
    ("hinglish" : String) ∈ (["english", "hinglish"] : List String) ∧
    (strContains (build_system_prompt ("advanced") ("detailed") ("hinglish")) examDepthInstruction = true ∧
     strContains (build_system_prompt ("basic") ("detailed") ("hinglish")) examDepthInstruction = false) :=
  ⟨by decide, by decide,
   advanced_prompt_contains_exam_depth "detailed" "hinglish" (by decide) (by decide)⟩

/-- C8: for every enumerated level and language, the `short` system prompt
contains the explicit maximum-length constraint and the ban on extra
examples, while the `detailed` system prompt contains the headings and
numbered-steps instructions. -/
theorem style_clause_constraints :
    ∀ level language : String,
      level ∈ (["basic", "advanced"] : List String) →
      language ∈ (["english", "hinglish"] : List String) →
      (strContains (build_system_prompt level ("short") language) maxLenConstraint = true ∧
       strContains (build_system_prompt level ("short") language) noExtraExamples = true) ∧
      (strContains (build_system_prompt level ("detailed") language) headingsInstruction = true ∧
       strContains (build_system_prompt level ("detailed") language) numberedStepsInstruction = true) := by
  intro level language hl hg
  simp only [List.mem_cons, List.mem_singleton, List.not_mem_nil, or_false] at hl hg
  rcases hl with rfl | rfl <;> rcases hg with rfl | rfl <;>
    exact ⟨⟨by rw [strContains_build _ _ _ _ (by decide)]; decide,
            by rw [strContains_build _ _ _ _ (by decide)]; decide⟩,
           ⟨by rw [strContains_build _ _ _ _ (by decide)]; decide,
            by rw [strContains_build _ _ _ _ (by decide)]; decide⟩⟩

theorem style_clause_constraints_witness :
    ("basic" : String) ∈ (["basic", "advanced"] : List String) ∧
    ("hinglish" : String) ∈ (["english", "hinglish"] : List String) ∧
    ((strContains (build_system_prompt ("basic") ("short") ("hinglish")) maxLenConstraint = true ∧
      strContains (build_system_prompt ("basic") ("short") ("hinglish")) noExtraExamples = true) ∧
     (strContains (build_system_prompt ("basic") ("detailed") ("hinglish")) headingsInstruction = true ∧
      strContains (build_system_prompt ("basic") ("detailed") ("hinglish")) numberedStepsInstruction = true)) :=
  ⟨by decide, by decide,
   style_clause_constraints "basic" "hinglish" (by decide) (by decide)⟩

/-- C9: `build_system_prompt` is total over arbitrary strings and treats any
unrecognized option as its default branch: any level other than "advanced"
yields the basic clause, any style other than "detailed" yields the short
clause, and any language other than "hinglish" yields the english clause. -/
theorem buildSystemPrompt_defaults_unrecognized :
    ∀ level style language : String,
      (level ≠ "advanced" →
        build_system_prompt level style language =
          build_system_prompt ("basic") style language) ∧
      (style ≠ "detailed" →
        build_system_prompt level style language =
          build_system_prompt level ("short") language) ∧
      (language ≠ "hinglish" →
        build_system_prompt level style language =
          build_system_prompt level style ("english")) := by
  intro level style language
  refine ⟨fun h => ?_, fun h => ?_, fun h => ?_⟩
  · unfold build_system_prompt systemPromptParts level_line
    rw [if_neg h, if_neg (show ¬("basic" = "advanced") by decide)]
  · unfold build_system_prompt systemPromptParts style_line
    rw [if_neg h, if_neg (show ¬("short" = "detailed") by decide)]
  · unfold build_system_prompt systemPromptParts lang_line
    rw [if_neg h, if_neg (show ¬("english" = "hinglish") by decide)]

theorem buildSystemPrompt_defaults_unrecognized_witness :
    build_system_prompt ("intermediate") ("detailed") ("hinglish") =
      build_system_prompt ("basic") ("detailed") ("hinglish") ∧
    build_system_prompt ("basic") ("long") ("hinglish") =
      build_system_prompt ("basic") ("short") ("hinglish") ∧
    build_system_prompt ("basic") ("detailed") ("hindi") =
      build_system_prompt ("basic") ("detailed") ("english") :=
  ⟨(buildSystemPrompt_defaults_unrecognized "intermediate" "detailed" "hinglish").1 (by decide),
   (buildSystemPrompt_defaults_unrecognized "basic" "long" "hinglish").2.1 (by decide),
   (buildSystemPrompt_defaults_unrecognized "basic" "detailed" "hindi").2.2 (by decide)⟩

/-- C10: in `/ask-image` the `try` block encloses `file.read()` as well as
the provider call, so an exception while reading the upload also yields
HTTP 200 with the image handler's own fixed fallback sentence — as does a
provider failure — and that sentence differs from the `/ask-text`
fallback. -/
theorem askImage_read_failure_masked :
    ∀ (ct : Option String) (level style language : String)
      (gen : List GenPart → GenOutcome) (bytes : List Nat),
      ask_image ct level style language none gen = { answer_text := imageFallback } ∧
      askImageRoute ct level style language none gen =
        HttpResult.handled 200 { answer_text := imageFallback } ∧
      ask_image ct level style language (some bytes) (fun _ => GenOutcome.raises) =
        { answer_text := imageFallback } ∧
      imageFallback ≠ textFallback := by
  intro ct level style language gen bytes
  exact ⟨rfl, rfl, rfl, by decide⟩

end QueryX
